import Mathlib

/-! harold: state-space models (`state.go`)

A shallow embedding of `state.go`: the `State` record, its constructor
`NewState`, the derived-field computation `recalc` and the accessors.

Conventions of the embedding.

* `*mat.Dense` is `Option (Dense α)`: `none` is the nil pointer.
* `float64` is an arbitrary type `α` with a zero; `state.go` itself performs no
  floating-point arithmetic, it only stores values and compares `dt` with `0`.
* `complex128` is a pair of `α`, and a Go slice is either the nil slice or an
  allocated list.
* A Go call either returns or aborts with a run-time panic: `Outcome`.
* The eigenvalue routine of gonum (`mat.Eigen`) is not part of the repository.
  Its numerical part is the parameter `geev`, which on a given matrix aborts,
  reports a failed decomposition, or yields the eigenvalues; `Eigen.Factorize`
  and `Eigen.Values` follow the documented behaviour of the library around it
  (abort on a nil, non-square or empty matrix, a boolean for convergence).
-/

namespace Harold

/-! ## Go values -/

/-- Outcome of a Go call: it aborts with a run-time panic, or it returns. -/
inductive Outcome (σ : Type) where
  | aborted : Outcome σ
  | done (v : σ) : Outcome σ

/-- The Go pair `(*T, error)` as returned by the functions of `state.go`:
`fail msg` is `(nil, errors.New(msg))` and `ok v` is `(v, nil)`. -/
inductive Ret (σ : Type) where
  | fail (msg : String) : Ret σ
  | ok (v : σ) : Ret σ

/-- Go `complex128` over the scalar type `α`. -/
structure Complex128 (α : Type) where
  re : α
  im : α

/-- Go slice: the nil slice, or an allocated slice with its elements. -/
inductive Slice (κ : Type) where
  | null : Slice κ
  | of (xs : List κ) : Slice κ

/-- Go `len(s)`. -/
def Slice.len {κ : Type} : Slice κ → Nat
  | .null => 0
  | .of xs => xs.length

/-- Elements of a slice, in order. -/
def Slice.elems {κ : Type} : Slice κ → List κ
  | .null => []
  | .of xs => xs

/-- Go `s == nil`. -/
def Slice.isNil {κ : Type} : Slice κ → Bool
  | .null => true
  | .of _ => false

/-- Go `copy(dst, src)` on the elements: the first `min (len dst) (len src)`
elements of `dst` are overwritten, the length of `dst` is unchanged. -/
def goCopy {κ : Type} (dst src : List κ) : List κ :=
  src.take dst.length ++ dst.drop src.length

/-! ## gonum `mat.Dense` and `mat.Eigen` -/

/-- gonum `mat.Dense`: row and column counts and the row-major data. -/
structure Dense (α : Type) where
  rows : Nat
  cols : Nat
  data : List α

/-- `mat.NewDense(r, c, data)`. -/
def NewDense {α : Type} (r c : Nat) (data : List α) : Dense α :=
  { rows := r, cols := c, data := data }

/-- `(*mat.Dense).Dims()`. -/
def Dense.Dims {α : Type} (m : Dense α) : Nat × Nat :=
  (m.rows, m.cols)

/-- `(*mat.Dense).At(i, j)` on the row-major data (zero outside the data). -/
def Dense.At {α : Type} [Zero α] (m : Dense α) (i j : Nat) : α :=
  m.data.getD (i * m.cols + j) 0

/-- The numerical part of `mat.Eigen.Factorize` (LAPACK `geev` and the
conversion of its output) on a square matrix. It may abort or not return at
all (`aborted`; gonum does so on matrices with non-finite entries), return
with a failed decomposition (`done none`), or return with the eigenvalue
stored at each index (`done (some w)`). -/
abbrev Geev (α : Type) : Type :=
  Dense α → Outcome (Option (Nat → Complex128 α))

/-- gonum `mat.Eigen` after `Factorize`: the size of the factorised matrix
(`0` when there is no successful factorisation) and its eigenvalues. -/
structure Eigen (α : Type) where
  n : Nat
  values : List (Complex128 α)

/-- `(*mat.Eigen).Factorize(a, mat.EigenRight)`: aborts on a nil matrix, on a
non-square matrix and on an empty one (the routine allocates the eigenvector
matrix with `mat.NewDense(c, c, nil)`, which aborts on a zero dimension);
otherwise it aborts when its numerical part does, and else reports whether the
decomposition succeeded and, when it did, holds the `r` eigenvalues of the
`r × r` matrix. -/
def Eigen.Factorize {α : Type} (geev : Geev α) (a : Option (Dense α)) :
    Outcome (Bool × Eigen α) :=
  match a with
  | none => .aborted
  | some av =>
    let (r, c) := av.Dims
    if r ≠ c then .aborted
    else if c = 0 then .aborted
    else
      match geev av with
      | .aborted => .aborted
      | .done none => .done (false, { n := 0, values := [] })
      | .done (some w) => .done (true, { n := r, values := (List.range r).map w })

/-- `(*mat.Eigen).Values(dst)`: aborts without a successful factorisation or
when `dst` is non-nil with a length other than `n`; otherwise copies the
eigenvalues into `dst` (allocated when nil) and returns it. -/
def Eigen.Values {α : Type} [Zero α] (e : Eigen α) (dst : Slice (Complex128 α)) :
    Outcome (Slice (Complex128 α)) :=
  if e.n = 0 then .aborted
  else
    let buf : List (Complex128 α) :=
      match dst with
      | .null => List.replicate e.n { re := 0, im := 0 }
      | .of xs => xs
    if buf.length ≠ e.n then .aborted
    else .done (.of (goCopy buf e.values))

/-! ## `state.go` -/

/-- The `State` struct. -/
structure State (α : Type) where
  A : Option (Dense α)
  B : Option (Dense α)
  C : Option (Dense α)
  D : Option (Dense α)
  dt : α
  isSISO : Bool
  isGain : Bool
  isStable : Bool
  poles : Slice (Complex128 α)
  zeros : Slice (Complex128 α)

/-- `calculatePoles(a)`: nil when the factorisation reports failure, else a
fresh slice of `r` entries filled by `eigen.Values`. -/
def calculatePoles {α : Type} [Zero α] (geev : Geev α) (a : Option (Dense α)) :
    Outcome (Slice (Complex128 α)) :=
  match Eigen.Factorize geev a with
  | .aborted => .aborted
  | .done (ok, eigen) =>
    if !ok then .done .null
    else
      match a with
      | none => .aborted
      | some av =>
        let (r, _) := av.Dims
        let eigenvalues : Slice (Complex128 α) :=
          .of (List.replicate r { re := 0, im := 0 })
        eigen.Values eigenvalues

/-- `calculateZeros(s)`: the placeholder of the source, an empty slice. -/
def calculateZeros {α : Type} (_s : State α) : Slice (Complex128 α) :=
  .of []

/-- `(*State).checkStability()`: the source returns `true`. -/
def State.checkStability {α : Type} (_s : State α) : Bool :=
  true

/-- `(*State).recalc()`, returning the updated record. -/
def State.recalc {α : Type} [Zero α] (geev : Geev α) (s : State α) : Outcome (State α) :=
  if s.isGain then
    .done { s with isStable := true, poles := .of [], zeros := .of [] }
  else
    match calculatePoles geev s.A with
    | .aborted => .aborted
    | .done p =>
      let s1 : State α := { s with poles := p }
      let s2 : State α := { s1 with zeros := calculateZeros s1 }
      .done { s2 with isStable := s2.checkStability }

/-- Error text of the `A`/`B` row check. -/
def errRowsAB : String := "'A' and 'B' row dimensions do not match"

/-- Error text of the `A`/`C` column check. -/
def errColsAC : String := "'A' and 'C' column dimensions do not match"

/-- Error text of the static-gain check. -/
def errNoD : String := "'D' matrix must be provided for static gain models"

/-- The record built by the struct literal of `NewState`, followed by
`s.recalc()` and `return s, nil`. -/
def NewState.finish {α : Type} [Zero α] (geev : Geev α) (a b c d : Option (Dense α))
    (dt : α) (isSISO : Bool) : Outcome (Ret (State α)) :=
  let s : State α :=
    { A := a, B := b, C := c, D := d, dt := dt, isSISO := isSISO,
      isGain := a.isNone, isStable := false, poles := .of [], zeros := .of [] }
  match s.recalc geev with
  | .aborted => .aborted
  | .done s1 => .done (.ok s1)

/-- `NewState(a, b, c, d, dt)`. -/
def NewState {α : Type} [Zero α] (geev : Geev α) (a b c d : Option (Dense α)) (dt : α) :
    Outcome (Ret (State α)) :=
  let br : Nat := match b with
    | some bv => bv.Dims.1
    | none => 0
  let cc : Nat := match c with
    | some cv => cv.Dims.2
    | none => 0
  match a with
  | some av =>
    let (ar, ac) := av.Dims
    if b.isSome && (ar != br) then .done (.fail errRowsAB)
    else if c.isSome && (ac != cc) then .done (.fail errColsAC)
    else NewState.finish geev a b c d dt (b.isSome && c.isSome && br == 1 && cc == 1)
  | none =>
    match d with
    | none => .done (.fail errNoD)
    | some dv =>
      let (dr, dc) := dv.Dims
      NewState.finish geev a b c d dt (dr == 1 && dc == 1)

/-- `(*State).SamplingPeriod()`. -/
def State.SamplingPeriod {α : Type} (s : State α) : α :=
  s.dt

/-- `(*State).SamplingSet()`. -/
def State.SamplingSet {α : Type} [Zero α] [DecidableEq α] (s : State α) : String :=
  if s.dt = 0 then "R" else "Z"

/-- `(*State).NumberOfStates()`. -/
def State.NumberOfStates {α : Type} (s : State α) : Nat :=
  match s.A with
  | none => 0
  | some av => av.Dims.1

/-- `(*State).NumberOfInputs()`. -/
def State.NumberOfInputs {α : Type} (s : State α) : Nat :=
  match s.B with
  | none => 0
  | some bv => bv.Dims.2

/-- `(*State).NumberOfOutputs()`. -/
def State.NumberOfOutputs {α : Type} (s : State α) : Nat :=
  match s.C with
  | none => 0
  | some cv => cv.Dims.1

/-- `(*State).Shape()`. -/
def State.Shape {α : Type} (s : State α) : Nat × Nat :=
  (s.NumberOfOutputs, s.NumberOfInputs)

/-- `(*State).Matrices()`. -/
def State.Matrices {α : Type} (s : State α) :
    Option (Dense α) × Option (Dense α) × Option (Dense α) × Option (Dense α) :=
  (s.A, s.B, s.C, s.D)

/-- Error text of `ToArray` on a model that is not a gain. -/
def errNotGain : String := "only static gain models can be converted to arrays"

/-- `(*State).ToArray()`: `(nil, error)` unless the model is a gain, else
`(s.D, nil)`. -/
def State.ToArray {α : Type} (s : State α) : Ret (Option (Dense α)) :=
  if !s.isGain then .fail errNotGain
  else .ok s.D

/-- `(*State).String()`; `fmt3` renders a `float64` with the verb `%.3f`. -/
def State.Describe {α : Type} (fmt3 : α → String) (s : State α) : String :=
  let desc := "State representation with sampling time: " ++ fmt3 s.dt ++ "\n"
  if s.isGain then
    desc ++ toString s.NumberOfOutputs ++ "x" ++ toString s.NumberOfInputs ++ " Static Gain\n"
  else
    desc ++ toString s.NumberOfStates ++ " states, " ++ toString s.NumberOfInputs
      ++ " inputs, and " ++ toString s.NumberOfOutputs ++ " outputs\n"

/-! ## Inputs used in the examples -/

/-- The state matrix of `TestState`: `mat.NewDense(2, 2, {0, 1, -4, -5})`. -/
def exampleA : Dense ℚ := NewDense 2 2 [0, 1, -4, -5]

/-- The input matrix of `TestState`: `mat.NewDense(2, 1, {0, 1})`. -/
def exampleB : Dense ℚ := NewDense 2 1 [0, 1]

/-- The output matrix of `TestState`: `mat.NewDense(1, 2, {1, 0})`. -/
def exampleC : Dense ℚ := NewDense 1 2 [1, 0]

/-- The feed-through matrix of `TestState`: `mat.NewDense(1, 1, {1})`. -/
def exampleD : Dense ℚ := NewDense 1 1 [1]

/-- A `1 × 1` matrix with the single entry `x`. -/
def scalarDense (x : ℚ) : Dense ℚ := NewDense 1 1 [x]

/-- The eigenvalue routine on the matrices of the examples, where it answers
with their exact eigenvalues: `-1` and `-4` for `exampleA`, the entry itself
for a `1 × 1` matrix. It is left unspecified on every other matrix, where it
yields nothing. -/
def exampleGeev : Geev ℚ := fun a =>
  if a.rows = 2 ∧ a.cols = 2 ∧ a.data = [0, 1, -4, -5] then
    .done (some (fun i => { re := [(-1 : ℚ), -4].getD i 0, im := 0 }))
  else if a.rows = 1 ∧ a.cols = 1 then
    .done (some (fun _ => { re := a.At 0 0, im := 0 }))
  else .aborted

/-- The model that `NewState` returns for the inputs of `TestState` when the
eigenvalue kernel is `exampleGeev`. -/
def exampleState : State ℚ :=
  { A := some exampleA, B := some exampleB, C := some exampleC, D := some exampleD,
    dt := 1 / 10, isSISO := false, isGain := false, isStable := true,
    poles := .of [{ re := -1, im := 0 }, { re := -4, im := 0 }], zeros := .of [] }

/-- The gain model that `NewState` returns for `D = exampleD` alone, `dt = 0`. -/
def exampleGain : State ℚ :=
  { A := none, B := none, C := none, D := some exampleD,
    dt := 0, isSISO := true, isGain := true, isStable := true,
    poles := .of [], zeros := .of [] }

/-- The slice that `calculatePoles` returns for a matrix with `n` rows once the
numerical part of `Factorize` has returned `r`: nil after a failed
decomposition, the `n` eigenvalues otherwise. -/
def polesOf {α : Type} (r : Option (Nat → Complex128 α)) (n : Nat) : Slice (Complex128 α) :=
  match r with
  | none => .null
  | some w => .of ((List.range n).map w)

/-- The value of the `isSISO` local of `NewState` on the path that builds the
record. -/
def sisoFlag {α : Type} (a b c d : Option (Dense α)) : Bool :=
  match a with
  | some _ =>
    match b, c with
    | some bv, some cv => bv.rows == 1 && cv.cols == 1
    | _, _ => false
  | none =>
    match d with
    | some dv => dv.rows == 1 && dv.cols == 1
    | none => false

/-! ## Properties stated by the specification -/

/-- One of the three dimension rules of the constructor is violated. -/
def DimensionRuleViolated {α : Type} (a b c d : Option (Dense α)) : Prop :=
  (∃ av bv, a = some av ∧ b = some bv ∧ bv.rows ≠ av.rows) ∨
  (∃ av cv, a = some av ∧ c = some cv ∧ cv.cols ≠ av.cols) ∨
  (a = none ∧ d = none)

/-- The pole `z` lies strictly inside the stability region of the sampling
period `dt`: negative real part when `dt = 0`, squared modulus below `1` when
`dt > 0`. -/
def InsideStabilityRegion {α : Type} [LinearOrderedRing α] (dt : α) (z : Complex128 α) : Prop :=
  (dt = 0 → z.re < 0) ∧ (0 < dt → z.re * z.re + z.im * z.im < 1)

/-- Entry `(i, j)` of an optional matrix, read in the field `K`; zero when the
matrix is absent. -/
def entryIn (K : Type) [Field K] (m : Option (Dense ℚ)) (i j : Nat) : K :=
  match m with
  | none => 0
  | some mv => ((mv.At i j : ℚ) : K)

/-- Entry `(i, j)` of the system pencil `M(z) = [[z I - A, B], [C, D]]` of a
model with `n` states, over the field `K`. -/
def pencilEntry {K : Type} [Field K] (s : State ℚ) (z : K) (i j : Nat) : K :=
  if i < s.NumberOfStates then
    if j < s.NumberOfStates then (if i = j then z else 0) - entryIn K s.A i j
    else entryIn K s.B i (j - s.NumberOfStates)
  else
    if j < s.NumberOfStates then entryIn K s.C (i - s.NumberOfStates) j
    else entryIn K s.D (i - s.NumberOfStates) (j - s.NumberOfStates)

/-- Determinant of the `(n + 1) × (n + 1)` pencil `M(z)` of a single-input
single-output model. -/
def pencilDet {K : Type} [Field K] (s : State ℚ) (z : K) : K :=
  Matrix.det (Matrix.of fun (i j : Fin (s.NumberOfStates + 1)) => pencilEntry s z i j)

/-- The complex number `z` is a finite transmission zero: the pencil is
singular at `z` while its determinant is not identically zero. -/
def IsTransmissionZero (s : State ℚ) (z : ℂ) : Prop :=
  pencilDet s z = 0 ∧ ∃ w : ℂ, pencilDet s w ≠ 0

/-- The complex number `z` occurs in a sequence of `complex128` values. -/
def OccursIn (z : ℂ) (zs : Slice (Complex128 ℚ)) : Prop :=
  ∃ w ∈ zs.elems, z.re = (w.re : ℝ) ∧ z.im = (w.im : ℝ)

/-- Determinant of `z I - A` for a matrix `A` with `n` rows, over the field `K`. -/
def charDet {K : Type} [Field K] (a : Dense ℚ) (z : K) : K :=
  Matrix.det (Matrix.of fun (i j : Fin a.rows) =>
    (if i = j then z else 0) - entryIn K (some a) i j)

/-- The complex number `z` is an eigenvalue of `a`: `z I - A` is singular. -/
def IsEigenvalue (a : Dense ℚ) (z : ℂ) : Prop :=
  charDet a z = 0

end Harold

namespace Harold

/-! ## Auxiliary facts about the embedding -/

theorem goCopy_replicate {κ : Type} (z : κ) (xs : List κ) :
    goCopy (List.replicate xs.length z) xs = xs := by
  simp [goCopy]

theorem calculatePoles_square {α : Type} [Zero α] (geev : Geev α) (av : Dense α)
    (hsq : av.rows = av.cols) (hpos : 0 < av.rows)
    (r : Option (Nat → Complex128 α)) (hg : geev av = .done r) :
    calculatePoles geev (some av) = .done (polesOf r av.rows) := by
  have hne : ¬ av.cols = 0 := by omega
  unfold calculatePoles Eigen.Factorize
  simp only [Dense.Dims, hsq, ne_eq, not_true_eq_false, if_false, hne, hg]
  cases r with
  | none => simp [polesOf]
  | some w =>
    have h := goCopy_replicate ({ re := 0, im := 0 } : Complex128 α) ((List.range av.cols).map w)
    simp only [List.length_map, List.length_range] at h
    simp [Eigen.Values, hne, hsq, h, polesOf]

theorem calculatePoles_kernel_aborted {α : Type} [Zero α] (geev : Geev α) (av : Dense α)
    (hg : geev av = .aborted) : calculatePoles geev (some av) = .aborted := by
  unfold calculatePoles Eigen.Factorize
  simp only [Dense.Dims, hg]
  split_ifs <;> rfl

theorem finish_gain {α : Type} [Zero α] (geev : Geev α) (b c d : Option (Dense α))
    (dt : α) (siso : Bool) :
    NewState.finish geev none b c d dt siso =
      .done (.ok { A := none, B := b, C := c, D := d, dt := dt, isSISO := siso,
                   isGain := true, isStable := true, poles := .of [], zeros := .of [] }) := by
  rfl

theorem finish_square {α : Type} [Zero α] (geev : Geev α) (av : Dense α)
    (b c d : Option (Dense α)) (dt : α) (siso : Bool)
    (hsq : av.rows = av.cols) (hpos : 0 < av.rows)
    (r : Option (Nat → Complex128 α)) (hg : geev av = .done r) :
    NewState.finish geev (some av) b c d dt siso =
      .done (.ok { A := some av, B := b, C := c, D := d, dt := dt, isSISO := siso,
                   isGain := false, isStable := true,
                   poles := polesOf r av.rows, zeros := .of [] }) := by
  simp [NewState.finish, State.recalc, calculatePoles_square geev av hsq hpos r hg,
    calculateZeros, State.checkStability]

theorem finish_kernel_aborted {α : Type} [Zero α] (geev : Geev α) (av : Dense α)
    (b c d : Option (Dense α)) (dt : α) (siso : Bool) (hg : geev av = .aborted) :
    NewState.finish geev (some av) b c d dt siso = .aborted := by
  simp [NewState.finish, State.recalc, calculatePoles_kernel_aborted geev av hg]

theorem finish_not_square {α : Type} [Zero α] (geev : Geev α) (av : Dense α)
    (b c d : Option (Dense α)) (dt : α) (siso : Bool) (hsq : av.rows ≠ av.cols) :
    NewState.finish geev (some av) b c d dt siso = .aborted := by
  simp [NewState.finish, State.recalc, calculatePoles, Eigen.Factorize, Dense.Dims, hsq]

theorem finish_ne_fail {α : Type} [Zero α] (geev : Geev α) (a b c d : Option (Dense α))
    (dt : α) (siso : Bool) (msg : String) :
    NewState.finish geev a b c d dt siso ≠ .done (.fail msg) := by
  intro h
  unfold NewState.finish at h
  dsimp only at h
  cases hr : State.recalc geev
      { A := a, B := b, C := c, D := d, dt := dt, isSISO := siso, isGain := a.isNone,
        isStable := false, poles := Slice.of [], zeros := Slice.of [] } with
  | aborted => simp [hr] at h
  | done s1 => simp [hr] at h

theorem finish_fields {α : Type} [Zero α] (geev : Geev α) (a b c d : Option (Dense α))
    (dt : α) (siso : Bool) (s : State α)
    (h : NewState.finish geev a b c d dt siso = .done (.ok s)) :
    s.A = a ∧ s.B = b ∧ s.C = c ∧ s.D = d ∧ s.dt = dt ∧ s.isSISO = siso ∧
      s.isGain = a.isNone ∧ s.isStable = true ∧ s.zeros = .of [] := by
  cases a with
  | none =>
    rw [finish_gain] at h
    simp only [Outcome.done.injEq, Ret.ok.injEq] at h
    subst h
    simp
  | some av =>
    unfold NewState.finish State.recalc at h
    simp only [Option.isNone_some, Bool.false_eq_true, if_false] at h
    cases hp : calculatePoles geev (some av) with
    | aborted => simp [hp] at h
    | done p =>
      simp only [hp, Outcome.done.injEq, Ret.ok.injEq] at h
      subst h
      simp [calculateZeros, State.checkStability]

theorem NewState_of_no_violation {α : Type} [Zero α] (geev : Geev α)
    (a b c d : Option (Dense α)) (dt : α) (h : ¬ DimensionRuleViolated a b c d) :
    NewState geev a b c d dt = NewState.finish geev a b c d dt (sisoFlag a b c d) := by
  unfold DimensionRuleViolated at h
  push_neg at h
  obtain ⟨h1, h2, h3⟩ := h
  cases a with
  | none =>
    cases d with
    | none => exact absurd rfl (h3 rfl)
    | some dv => simp [NewState, sisoFlag, Dense.Dims]
  | some av =>
    have hb : ∀ bv, b = some bv → bv.rows = av.rows := fun bv hbv => h1 av bv rfl hbv
    have hc : ∀ cv, c = some cv → cv.cols = av.cols := fun cv hcv => h2 av cv rfl hcv
    cases b with
    | none =>
      cases c with
      | none => simp [NewState, sisoFlag, Dense.Dims]
      | some cv => simp [NewState, sisoFlag, Dense.Dims, hc cv rfl]
    | some bv =>
      cases c with
      | none => simp [NewState, sisoFlag, Dense.Dims, hb bv rfl]
      | some cv => simp [NewState, sisoFlag, Dense.Dims, hb bv rfl, hc cv rfl]

theorem NewState_of_violation {α : Type} [Zero α] (geev : Geev α)
    (a b c d : Option (Dense α)) (dt : α) (h : DimensionRuleViolated a b c d) :
    ∃ msg, NewState geev a b c d dt = .done (.fail msg) := by
  rcases h with ⟨av, bv, rfl, rfl, hne⟩ | ⟨av, cv, rfl, rfl, hne⟩ | ⟨rfl, rfl⟩
  · refine ⟨errRowsAB, ?_⟩
    have : ¬ av.rows = bv.rows := fun e => hne e.symm
    simp [NewState, Dense.Dims, this]
  · have hcne : ¬ av.cols = cv.cols := fun e => hne e.symm
    cases b with
    | none => exact ⟨errColsAC, by simp [NewState, Dense.Dims, hcne]⟩
    | some bv =>
      by_cases hb : av.rows = bv.rows
      · exact ⟨errColsAC, by simp [NewState, Dense.Dims, hcne, hb]⟩
      · exact ⟨errRowsAB, by simp [NewState, Dense.Dims, hb]⟩
  · exact ⟨errNoD, by simp [NewState]⟩

theorem NewState_fail_iff {α : Type} [Zero α] (geev : Geev α)
    (a b c d : Option (Dense α)) (dt : α) :
    (∃ msg, NewState geev a b c d dt = .done (.fail msg)) ↔ DimensionRuleViolated a b c d := by
  constructor
  · rintro ⟨msg, hmsg⟩
    by_contra hv
    rw [NewState_of_no_violation geev a b c d dt hv] at hmsg
    exact finish_ne_fail _ _ _ _ _ _ _ _ hmsg
  · exact NewState_of_violation geev a b c d dt

theorem NewState_ok_fields {α : Type} [Zero α] (geev : Geev α)
    (a b c d : Option (Dense α)) (dt : α) (s : State α)
    (h : NewState geev a b c d dt = .done (.ok s)) :
    ¬ DimensionRuleViolated a b c d ∧
      NewState.finish geev a b c d dt (sisoFlag a b c d) = .done (.ok s) := by
  have hv : ¬ DimensionRuleViolated a b c d := by
    intro hv
    obtain ⟨msg, hmsg⟩ := NewState_of_violation geev a b c d dt hv
    rw [hmsg] at h
    simp at h
  exact ⟨hv, by rw [← NewState_of_no_violation geev a b c d dt hv]; exact h⟩

theorem NewState_exampleState :
    NewState exampleGeev (some exampleA) (some exampleB) (some exampleC) (some exampleD)
      (1 / 10) = .done (.ok exampleState) := by
  rfl

theorem NewState_exampleGain :
    NewState exampleGeev none none none (some exampleD) 0 = .done (.ok exampleGain) := by
  rfl

theorem finish_empty {α : Type} [Zero α] (geev : Geev α) (av : Dense α)
    (b c d : Option (Dense α)) (dt : α) (siso : Bool) (h0 : av.cols = 0) :
    NewState.finish geev (some av) b c d dt siso = .aborted := by
  simp [NewState.finish, State.recalc, calculatePoles, Eigen.Factorize, Dense.Dims, h0]

theorem finish_some_ok {α : Type} [Zero α] (geev : Geev α) (av : Dense α)
    (b c d : Option (Dense α)) (dt : α) (siso : Bool) (s : State α)
    (h : NewState.finish geev (some av) b c d dt siso = .done (.ok s)) :
    av.rows = av.cols ∧ 0 < av.rows ∧
      ∃ r, geev av = .done r ∧ s.poles = polesOf r av.rows := by
  by_cases hsq : av.rows = av.cols
  · by_cases hpos : 0 < av.rows
    · cases hg : geev av with
      | aborted =>
        rw [finish_kernel_aborted geev av b c d dt siso hg] at h
        simp at h
      | done r =>
        refine ⟨hsq, hpos, r, rfl, ?_⟩
        rw [finish_square geev av b c d dt siso hsq hpos r hg] at h
        simp only [Outcome.done.injEq, Ret.ok.injEq] at h
        subst h
        rfl
    · rw [finish_empty geev av b c d dt siso (by omega)] at h
      simp at h
  · rw [finish_not_square geev av b c d dt siso hsq] at h
    simp at h

/-! ## C1: when the constructor fails -/

/-- C1, as stated, fails: with `A` of size 2 x 3, `B` of size 2 x 1 and `C` of
size 1 x 3 no dimension rule is violated, yet `NewState` returns neither an
error nor a model; the call aborts inside the eigenvalue routine. -/
theorem NewState_not_square_aborts :
    ¬ DimensionRuleViolated (some (NewDense 2 3 [0, 1, 0, -4, -5, 0])) (some exampleB)
        (some (NewDense 1 3 [1, 0, 2])) (some exampleD) ∧
      NewState exampleGeev (some (NewDense 2 3 [0, 1, 0, -4, -5, 0])) (some exampleB)
        (some (NewDense 1 3 [1, 0, 2])) (some exampleD) (1 / 10) = .aborted ∧
      ¬ ∃ s, NewState exampleGeev (some (NewDense 2 3 [0, 1, 0, -4, -5, 0])) (some exampleB)
        (some (NewDense 1 3 [1, 0, 2])) (some exampleD) (1 / 10) = .done (.ok s) := by
  have hab : NewState exampleGeev (some (NewDense 2 3 [0, 1, 0, -4, -5, 0])) (some exampleB)
      (some (NewDense 1 3 [1, 0, 2])) (some exampleD) (1 / 10) = .aborted := rfl
  refine ⟨?_, hab, ?_⟩
  · simp [DimensionRuleViolated, NewDense, exampleB]
  · rw [hab]
    simp

/-- C1, amended: `NewState` returns an error if and only if one of the three
dimension rules is violated; and when no rule is violated and `A` is absent,
or `A` is square with at least one row and the eigenvalue routine returns on
it, `NewState` returns a model and no error. -/
theorem NewState_error_iff_rule_violated {α : Type} [Zero α] (geev : Geev α)
    (a b c d : Option (Dense α)) (dt : α) :
    ((∃ msg, NewState geev a b c d dt = .done (.fail msg)) ↔ DimensionRuleViolated a b c d) ∧
      (¬ DimensionRuleViolated a b c d →
        (∀ av, a = some av → av.rows = av.cols ∧ 0 < av.rows ∧ geev av ≠ .aborted) →
        ∃ s, NewState geev a b c d dt = .done (.ok s)) := by
  refine ⟨NewState_fail_iff geev a b c d dt, fun hv hsq => ?_⟩
  rw [NewState_of_no_violation geev a b c d dt hv]
  cases a with
  | none => exact ⟨_, finish_gain geev b c d dt _⟩
  | some av =>
    obtain ⟨h1, h2, h3⟩ := hsq av rfl
    cases hg : geev av with
    | aborted => exact absurd hg h3
    | done r => exact ⟨_, finish_square geev av b c d dt _ h1 h2 r hg⟩

/-- Witness for C1: the model of `TestState` violates no rule and is built;
so is the same `A` with `B` absent. -/
theorem NewState_error_iff_rule_violated_witness :
    (∃ s, NewState exampleGeev (some exampleA) (some exampleB) (some exampleC) (some exampleD)
        (1 / 10) = .done (.ok s)) ∧
      (∃ s, NewState exampleGeev (some exampleA) none (some exampleC) (some exampleD)
        (1 / 10) = .done (.ok s)) :=
  ⟨(NewState_error_iff_rule_violated exampleGeev (some exampleA) (some exampleB)
      (some exampleC) (some exampleD) (1 / 10)).2
      (by simp [DimensionRuleViolated, exampleA, exampleB, exampleC, NewDense])
      (by
        intro av hav
        cases hav
        exact ⟨rfl, by decide, by simp [exampleGeev, exampleA, NewDense]⟩),
   (NewState_error_iff_rule_violated exampleGeev (some exampleA) none
      (some exampleC) (some exampleD) (1 / 10)).2
      (by simp [DimensionRuleViolated, exampleA, exampleC, NewDense])
      (by
        intro av hav
        cases hav
        exact ⟨rfl, by decide, by simp [exampleGeev, exampleA, NewDense]⟩)⟩

/-! ## C2: the stability flag -/

/-- Every model returned by `NewState` has `isStable = true`, whatever its
poles and sampling period are. -/
theorem NewState_isStable {α : Type} [Zero α] (geev : Geev α)
    (a b c d : Option (Dense α)) (dt : α) (s : State α)
    (h : NewState geev a b c d dt = .done (.ok s)) : s.isStable = true :=
  (finish_fields geev a b c d dt _ s (NewState_ok_fields geev a b c d dt s h).2).2.2.2.2.2.2.2.1

/-- C2, the code at two failing inputs: the discrete-time model with `A = [[1]]`
(`dt = 1`) has its only pole at `1`, on the unit circle, and the
continuous-time model with `A = [[0]]` (`dt = 0`) has its only pole at `0`, on
the imaginary axis; both are returned with `isStable = true` although a pole
is not strictly inside the stability region. -/
theorem isStable_true_on_boundary_pole :
    (∃ s, NewState exampleGeev (some (scalarDense 1)) (some (scalarDense 1))
          (some (scalarDense 1)) (some (scalarDense 0)) 1 = .done (.ok s) ∧
        s.poles = .of [{ re := 1, im := 0 }] ∧ s.isStable = true ∧
        ¬ ∀ z ∈ s.poles.elems, InsideStabilityRegion s.dt z) ∧
      (∃ s, NewState exampleGeev (some (scalarDense 0)) (some (scalarDense 1))
          (some (scalarDense 1)) (some (scalarDense 0)) 0 = .done (.ok s) ∧
        s.poles = .of [{ re := 0, im := 0 }] ∧ s.isStable = true ∧
        ¬ ∀ z ∈ s.poles.elems, InsideStabilityRegion s.dt z) := by
  refine ⟨⟨{ A := some (scalarDense 1), B := some (scalarDense 1), C := some (scalarDense 1),
              D := some (scalarDense 0), dt := 1, isSISO := true, isGain := false,
              isStable := true, poles := .of [{ re := 1, im := 0 }], zeros := .of [] },
            rfl, rfl, rfl, ?_⟩,
          ⟨{ A := some (scalarDense 0), B := some (scalarDense 1), C := some (scalarDense 1),
              D := some (scalarDense 0), dt := 0, isSISO := true, isGain := false,
              isStable := true, poles := .of [{ re := 0, im := 0 }], zeros := .of [] },
            rfl, rfl, rfl, ?_⟩⟩
  · simp [Slice.elems, InsideStabilityRegion]
  · simp [Slice.elems, InsideStabilityRegion]

/-! ## C3: the SISO flag -/

/-- C3, the code at the failing input: the model of `TestState` (`A` 2 x 2,
`B` 2 x 1, `C` 1 x 2, `D` 1 x 1) is built whenever the eigenvalue routine
returns on `A`; it has one input and one output, and its `isSISO` flag is
`false`. -/
theorem isSISO_false_on_test_model (geev : Geev ℚ)
    (r : Option (Nat → Complex128 ℚ)) (hg : geev exampleA = .done r) :
    ∃ s, NewState geev (some exampleA) (some exampleB) (some exampleC) (some exampleD)
          (1 / 10) = .done (.ok s) ∧
      s.NumberOfInputs = 1 ∧ s.NumberOfOutputs = 1 ∧ s.isSISO = false := by
  have hv : ¬ DimensionRuleViolated (some exampleA) (some exampleB) (some exampleC)
      (some exampleD) := by
    simp [DimensionRuleViolated, exampleA, exampleB, exampleC, NewDense]
  have hf := finish_square geev exampleA (some exampleB) (some exampleC) (some exampleD)
    (1 / 10) (sisoFlag (some exampleA) (some exampleB) (some exampleC) (some exampleD))
    rfl (by decide) r hg
  exact ⟨_, (NewState_of_no_violation geev _ _ _ _ _ hv).trans hf, rfl, rfl, rfl⟩

/-- Witness for C3: the routine that answers `-1` and `-4` on the matrix of
`TestState`. -/
theorem isSISO_false_on_test_model_witness :
    ∃ s, NewState exampleGeev (some exampleA) (some exampleB) (some exampleC)
          (some exampleD) (1 / 10) = .done (.ok s) ∧
      s.NumberOfInputs = 1 ∧ s.NumberOfOutputs = 1 ∧ s.isSISO = false :=
  isSISO_false_on_test_model exampleGeev _ rfl

/-! ## C4: transmission zeros -/

theorem pencilDet_test_model (S : State ℚ) (hA : S.A = some exampleA)
    (hB : S.B = some exampleB) (hC : S.C = some exampleC) (hD : S.D = some exampleD)
    (z : ℂ) : pencilDet S z = z ^ 2 + 5 * z + 3 := by
  have hn : S.NumberOfStates = 2 := by simp [State.NumberOfStates, hA, exampleA, NewDense, Dense.Dims]
  unfold pencilDet
  rw [hn, Matrix.det_fin_three]
  simp [pencilEntry, hn, entryIn, hA, hB, hC, hD, Dense.At, exampleA, exampleB, exampleC,
    exampleD, NewDense]
  ring

/-- C4, the code at the failing input: the model of `TestState` is built, whenever
the eigenvalue routine returns on `A`, with an empty `zeros` sequence, although its pencil `M(z)` has determinant
`z^2 + 5 z + 3`, which is not identically zero and vanishes at
`z = (sqrt 13 - 5) / 2`: a finite transmission zero that is missing from
`zeros`. -/
theorem zeros_empty_on_test_model (geev : Geev ℚ)
    (r : Option (Nat → Complex128 ℚ)) (hg : geev exampleA = .done r) :
    ∃ s, NewState geev (some exampleA) (some exampleB) (some exampleC) (some exampleD)
          (1 / 10) = .done (.ok s) ∧
      s.zeros = .of [] ∧
      ∃ z : ℂ, IsTransmissionZero s z ∧ ¬ OccursIn z s.zeros := by
  have hv : ¬ DimensionRuleViolated (some exampleA) (some exampleB) (some exampleC)
      (some exampleD) := by
    simp [DimensionRuleViolated, exampleA, exampleB, exampleC, NewDense]
  have hf := finish_square geev exampleA (some exampleB) (some exampleC) (some exampleD)
    (1 / 10) (sisoFlag (some exampleA) (some exampleB) (some exampleC) (some exampleD))
    rfl (by decide) r hg
  refine ⟨_, (NewState_of_no_violation geev _ _ _ _ _ hv).trans hf, rfl, ?_⟩
  have hr : ((Real.sqrt 13 : ℝ) : ℂ) ^ 2 = 13 := by
    have h : (Real.sqrt 13) ^ 2 = 13 := Real.sq_sqrt (by norm_num)
    exact_mod_cast h
  refine ⟨(((Real.sqrt 13 : ℝ) : ℂ) - 5) / 2, ⟨?_, 0, ?_⟩, ?_⟩
  · rw [pencilDet_test_model _ rfl rfl rfl rfl]
    linear_combination (1 / 4) * hr
  · rw [pencilDet_test_model _ rfl rfl rfl rfl]
    norm_num
  · simp [OccursIn, Slice.elems]

/-- Witness for C4: the routine that answers `-1` and `-4` on the matrix of
`TestState`. -/
theorem zeros_empty_on_test_model_witness :
    ∃ s, NewState exampleGeev (some exampleA) (some exampleB) (some exampleC)
          (some exampleD) (1 / 10) = .done (.ok s) ∧
      s.zeros = .of [] ∧
      ∃ z : ℂ, IsTransmissionZero s z ∧ ¬ OccursIn z s.zeros :=
  zeros_empty_on_test_model exampleGeev _ rfl

/-! ## C6: gain models -/

/-- C6: with `A` absent and `D` present, for every `B`, `C` and `dt`, `NewState`
returns a gain model with `isStable = true`, and with `poles` and `zeros` equal
to the empty sequence. -/
theorem NewState_gain_model {α : Type} [Zero α] (geev : Geev α)
    (b c : Option (Dense α)) (dv : Dense α) (dt : α) :
    ∃ s, NewState geev none b c (some dv) dt = .done (.ok s) ∧
      s.isGain = true ∧ s.isStable = true ∧ s.poles = .of [] ∧ s.zeros = .of [] :=
  ⟨_, rfl, rfl, rfl, rfl, rfl⟩

/-! ## C8: `ToArray` -/

/-- C8: for every model returned by `NewState`, `ToArray` returns an error (and
no matrix) if and only if the model was built with `A` present; when `A` is
absent it returns the supplied `D`, which is present, and no error; and
`isGain` is true exactly when `A` is absent. -/
theorem ToArray_error_iff_dynamic {α : Type} [Zero α] (geev : Geev α)
    (a b c d : Option (Dense α)) (dt : α) (s : State α)
    (h : NewState geev a b c d dt = .done (.ok s)) :
    ((∃ msg, s.ToArray = .fail msg) ↔ a ≠ none) ∧
      (a = none → s.ToArray = .ok d ∧ d ≠ none) ∧
      (s.isGain = true ↔ a = none) := by
  obtain ⟨hv, hf⟩ := NewState_ok_fields geev a b c d dt s h
  obtain ⟨_, _, _, hD, _, _, hG, _, _⟩ := finish_fields geev a b c d dt _ s hf
  cases a with
  | none =>
    have hd : d ≠ none := fun hd => hv (Or.inr (Or.inr ⟨rfl, hd⟩))
    simp [State.ToArray, hG, hD, hd]
  | some av =>
    simp [State.ToArray, hG]

/-- Witness for C8: `ToArray` on the model of `TestState` (an error) . -/
theorem ToArray_error_iff_dynamic_witness :
    ((∃ msg, exampleState.ToArray = .fail msg) ↔ some exampleA ≠ none) ∧
      (some exampleA = none → exampleState.ToArray = .ok (some exampleD) ∧
        some exampleD ≠ none) ∧
      (exampleState.isGain = true ↔ some exampleA = none) :=
  ToArray_error_iff_dynamic exampleGeev (some exampleA) (some exampleB) (some exampleC)
    (some exampleD) (1 / 10) exampleState NewState_exampleState

/-! ## C9: the matrices are read back unchanged -/

/-- C9: on every input on which `NewState` succeeds, `Matrices()` of the returned
model yields the supplied `a`, `b`, `c`, `d`, in that order, equal in presence
and in every entry. -/
theorem Matrices_roundtrip {α : Type} [Zero α] (geev : Geev α)
    (a b c d : Option (Dense α)) (dt : α) (s : State α)
    (h : NewState geev a b c d dt = .done (.ok s)) :
    s.Matrices = (a, b, c, d) := by
  obtain ⟨hA, hB, hC, hD, _⟩ :=
    finish_fields geev a b c d dt _ s (NewState_ok_fields geev a b c d dt s h).2
  simp [State.Matrices, hA, hB, hC, hD]

/-- Witness for C9: the matrices of `TestState`. -/
theorem Matrices_roundtrip_witness :
    exampleState.Matrices = (some exampleA, some exampleB, some exampleC, some exampleD) :=
  Matrices_roundtrip exampleGeev (some exampleA) (some exampleB) (some exampleC)
    (some exampleD) (1 / 10) exampleState NewState_exampleState

/-! ## C10: state, input and output counts -/

/-- C10: for every model returned by `NewState` with `A`, `B` and `C` present,
`NumberOfStates()` is `rows(A)`, `NumberOfInputs()` is `cols(B)`,
`NumberOfOutputs()` is `rows(C)` and `Shape()` is `(rows(C), cols(B))`. -/
theorem counts_of_dynamic_model {α : Type} [Zero α] (geev : Geev α)
    (av bv cv : Dense α) (d : Option (Dense α)) (dt : α) (s : State α)
    (h : NewState geev (some av) (some bv) (some cv) d dt = .done (.ok s)) :
    s.NumberOfStates = av.rows ∧ s.NumberOfInputs = bv.cols ∧
      s.NumberOfOutputs = cv.rows ∧
      s.Shape = (s.NumberOfOutputs, s.NumberOfInputs) ∧ s.Shape = (cv.rows, bv.cols) := by
  obtain ⟨hA, hB, hC, _⟩ :=
    finish_fields geev _ _ _ d dt _ s (NewState_ok_fields geev _ _ _ d dt s h).2
  simp [State.NumberOfStates, State.NumberOfInputs, State.NumberOfOutputs, State.Shape,
    hA, hB, hC, Dense.Dims]

/-- Witness for C10: the 2-state model of `TestState` gives 2, 1, 1 and (1, 1). -/
theorem counts_of_dynamic_model_witness :
    exampleState.NumberOfStates = 2 ∧ exampleState.NumberOfInputs = 1 ∧
      exampleState.NumberOfOutputs = 1 ∧
      exampleState.Shape = (exampleState.NumberOfOutputs, exampleState.NumberOfInputs) ∧
      exampleState.Shape = (1, 1) :=
  counts_of_dynamic_model exampleGeev exampleA exampleB exampleC (some exampleD) (1 / 10)
    exampleState NewState_exampleState

/-! ## C11: sampling period and sampling set -/

/-- C11, as stated, fails: `NewState` accepts the negative sampling period `-1`
for the model of `TestState`, and the returned model carries the discrete tag
`"Z"` although its sampling period is not positive. -/
theorem SamplingSet_Z_with_negative_dt :
    ∃ s, NewState exampleGeev (some exampleA) (some exampleB) (some exampleC) (some exampleD)
          (-1) = .done (.ok s) ∧
      s.SamplingPeriod = -1 ∧ s.SamplingSet = "Z" ∧ ¬ (0 < s.SamplingPeriod) := by
  refine ⟨{ exampleState with dt := -1 }, rfl, rfl, ?_, ?_⟩
  · simp [State.SamplingSet, exampleState]
  · simp [State.SamplingPeriod, exampleState]

/-- C11, amended: for every model returned by `NewState` built with sampling
period `dt`, `SamplingPeriod()` returns `dt` unchanged, `SamplingSet()` is `"R"`
if and only if `dt == 0`, and it is `"Z"` if and only if `dt != 0`. -/
theorem SamplingSet_R_iff_zero {α : Type} [Zero α] [DecidableEq α] (geev : Geev α)
    (a b c d : Option (Dense α)) (dt : α) (s : State α)
    (h : NewState geev a b c d dt = .done (.ok s)) :
    s.SamplingPeriod = dt ∧ (s.SamplingSet = "R" ↔ dt = 0) ∧ (s.SamplingSet = "Z" ↔ dt ≠ 0) := by
  obtain ⟨_, _, _, _, hdt, _⟩ :=
    finish_fields geev a b c d dt _ s (NewState_ok_fields geev a b c d dt s h).2
  refine ⟨hdt, ?_, ?_⟩
  · by_cases h0 : dt = 0
    · simp [State.SamplingSet, hdt, h0]
    · simp [State.SamplingSet, hdt, h0]
  · by_cases h0 : dt = 0
    · simp [State.SamplingSet, hdt, h0]
    · simp [State.SamplingSet, hdt, h0]

/-- Witness for C11 (amended): the model of `TestState`, with `dt = 0.1`. -/
theorem SamplingSet_R_iff_zero_witness :
    exampleState.SamplingPeriod = 1 / 10 ∧ (exampleState.SamplingSet = "R" ↔ (1 / 10 : ℚ) = 0) ∧
      (exampleState.SamplingSet = "Z" ↔ (1 / 10 : ℚ) ≠ 0) :=
  SamplingSet_R_iff_zero exampleGeev (some exampleA) (some exampleB) (some exampleC)
    (some exampleD) (1 / 10) exampleState NewState_exampleState

/-! ## C13: sign of the sampling period -/

/-- C13, as stated, fails: `NewState` succeeds on the gain model `D = [[1]]` with
the sampling period `-1`, and `SamplingPeriod()` of the result is negative. -/
theorem SamplingPeriod_negative :
    ∃ s, NewState exampleGeev none none none (some exampleD) (-1) = .done (.ok s) ∧
      s.SamplingPeriod < 0 ∧ ¬ (0 ≤ s.SamplingPeriod) := by
  refine ⟨{ exampleGain with dt := -1 }, rfl, ?_, ?_⟩
  · simp [State.SamplingPeriod, exampleGain]
  · simp [State.SamplingPeriod, exampleGain]

/-- C13, amended: `NewState` does not inspect the sampling period; on every input
on which it succeeds, `SamplingPeriod()` is the supplied `dt`, so it is
non-negative exactly when the supplied `dt` is. -/
theorem SamplingPeriod_nonneg_iff {α : Type} [Zero α] [LE α] (geev : Geev α)
    (a b c d : Option (Dense α)) (dt : α) (s : State α)
    (h : NewState geev a b c d dt = .done (.ok s)) :
    s.SamplingPeriod = dt ∧ (0 ≤ s.SamplingPeriod ↔ 0 ≤ dt) := by
  obtain ⟨_, _, _, _, hdt, _⟩ :=
    finish_fields geev a b c d dt _ s (NewState_ok_fields geev a b c d dt s h).2
  have hp : s.SamplingPeriod = dt := hdt
  exact ⟨hp, by rw [hp]⟩

/-- Witness for C13 (amended): the gain model `D = [[1]]` with `dt = 0`. -/
theorem SamplingPeriod_nonneg_iff_witness :
    exampleGain.SamplingPeriod = 0 ∧ (0 ≤ exampleGain.SamplingPeriod ↔ (0 : ℚ) ≤ 0) :=
  SamplingPeriod_nonneg_iff exampleGeev none none none (some exampleD) 0 exampleGain
    NewState_exampleGain

theorem NewState_rows_error {α : Type} [Zero α] (geev : Geev α) (av bv : Dense α)
    (c d : Option (Dense α)) (dt : α) (hne : bv.rows ≠ av.rows) :
    NewState geev (some av) (some bv) c d dt = .done (.fail errRowsAB) := by
  have : ¬ av.rows = bv.rows := fun e => hne e.symm
  simp [NewState, Dense.Dims, this]

theorem NewState_cols_error {α : Type} [Zero α] (geev : Geev α) (av cv : Dense α)
    (b d : Option (Dense α)) (dt : α) (hne : cv.cols ≠ av.cols)
    (hb : ∀ bv, b = some bv → bv.rows = av.rows) :
    NewState geev (some av) b (some cv) d dt = .done (.fail errColsAC) := by
  have hc : ¬ av.cols = cv.cols := fun e => hne e.symm
  cases b with
  | none => simp [NewState, Dense.Dims, hc]
  | some bv => simp [NewState, Dense.Dims, hc, hb bv rfl]

theorem NewState_missing_D {α : Type} [Zero α] (geev : Geev α)
    (b c : Option (Dense α)) (dt : α) :
    NewState geev none b c none dt = .done (.fail errNoD) := by
  simp [NewState]

theorem err_distinct :
    errRowsAB ≠ errColsAC ∧ errRowsAB ≠ errNoD ∧ errColsAC ≠ errNoD := by
  refine ⟨?_, ?_, ?_⟩ <;> decide

/-- The error returned by `NewState`, if any: the first violated rule in the
order of the source. -/
theorem NewState_fail_cases {α : Type} [Zero α] (geev : Geev α)
    (a b c d : Option (Dense α)) (dt : α) (msg : String)
    (h : NewState geev a b c d dt = .done (.fail msg)) :
    (msg = errRowsAB ∧ ∃ av bv, a = some av ∧ b = some bv ∧ bv.rows ≠ av.rows) ∨
      (msg = errColsAC ∧ ∃ av cv, a = some av ∧ c = some cv ∧ cv.cols ≠ av.cols ∧
        ∀ bv, b = some bv → bv.rows = av.rows) ∨
      (msg = errNoD ∧ a = none ∧ d = none) := by
  cases a with
  | none =>
    cases d with
    | none =>
      rw [NewState_missing_D] at h
      simp only [Outcome.done.injEq, Ret.fail.injEq] at h
      exact Or.inr (Or.inr ⟨h.symm, rfl, rfl⟩)
    | some dv =>
      have hv : ¬ DimensionRuleViolated (none : Option (Dense α)) b c (some dv) := by
        simp [DimensionRuleViolated]
      exact absurd ((NewState_fail_iff geev none b c (some dv) dt).1 ⟨msg, h⟩) hv
  | some av =>
    by_cases h1 : ∃ bv, b = some bv ∧ bv.rows ≠ av.rows
    · obtain ⟨bv, rfl, hne⟩ := h1
      rw [NewState_rows_error geev av bv c d dt hne] at h
      simp only [Outcome.done.injEq, Ret.fail.injEq] at h
      exact Or.inl ⟨h.symm, av, bv, rfl, rfl, hne⟩
    · have hb : ∀ bv, b = some bv → bv.rows = av.rows := by
        intro bv hbv
        by_contra hne
        exact h1 ⟨bv, hbv, hne⟩
      by_cases h2 : ∃ cv, c = some cv ∧ cv.cols ≠ av.cols
      · obtain ⟨cv, rfl, hne⟩ := h2
        rw [NewState_cols_error geev av cv b d dt hne hb] at h
        simp only [Outcome.done.injEq, Ret.fail.injEq] at h
        exact Or.inr (Or.inl ⟨h.symm, av, cv, rfl, rfl, hne, hb⟩)
      · have hv : ¬ DimensionRuleViolated (some av) b c d := by
          rintro (⟨av1, bv, e1, e2, e3⟩ | ⟨av1, cv, e1, e2, e3⟩ | ⟨e1, _⟩)
          · cases e1
            exact h1 ⟨bv, e2, e3⟩
          · cases e1
            exact h2 ⟨cv, e2, e3⟩
          · cases e1
        exact absurd ((NewState_fail_iff geev (some av) b c d dt).1 ⟨msg, h⟩) hv

/-! ## C14: order and identity of the errors -/

/-- C14: the A/B row-mismatch error is returned exactly when `A` and `B` are
present with `rows(B) != rows(A)` (whatever `C` is); the A/C column-mismatch
error exactly when `A` and `C` are present, `cols(C) != cols(A)` and the A/B
check passed; the missing-D error exactly when `A` and `D` are both absent;
and the three errors are pairwise distinct. -/
theorem NewState_error_order {α : Type} [Zero α] (geev : Geev α)
    (a b c d : Option (Dense α)) (dt : α) :
    (NewState geev a b c d dt = .done (.fail errRowsAB) ↔
        ∃ av bv, a = some av ∧ b = some bv ∧ bv.rows ≠ av.rows) ∧
      (NewState geev a b c d dt = .done (.fail errColsAC) ↔
        ∃ av cv, a = some av ∧ c = some cv ∧ cv.cols ≠ av.cols ∧
          ∀ bv, b = some bv → bv.rows = av.rows) ∧
      (NewState geev a b c d dt = .done (.fail errNoD) ↔ a = none ∧ d = none) ∧
      errRowsAB ≠ errColsAC ∧ errRowsAB ≠ errNoD ∧ errColsAC ≠ errNoD := by
  obtain ⟨d1, d2, d3⟩ := err_distinct
  refine ⟨⟨fun h => ?_, ?_⟩, ⟨fun h => ?_, ?_⟩, ⟨fun h => ?_, ?_⟩, d1, d2, d3⟩
  · rcases NewState_fail_cases geev a b c d dt _ h with ⟨_, hx⟩ | ⟨e, _⟩ | ⟨e, _⟩
    · exact hx
    · exact absurd e d1
    · exact absurd e d2
  · rintro ⟨av, bv, rfl, rfl, hne⟩
    exact NewState_rows_error geev av bv c d dt hne
  · rcases NewState_fail_cases geev a b c d dt _ h with ⟨e, _⟩ | ⟨_, hx⟩ | ⟨e, _⟩
    · exact absurd e.symm d1
    · exact hx
    · exact absurd e d3
  · rintro ⟨av, cv, rfl, rfl, hne, hb⟩
    exact NewState_cols_error geev av cv b d dt hne hb
  · rcases NewState_fail_cases geev a b c d dt _ h with ⟨e, _⟩ | ⟨e, _⟩ | ⟨_, hx⟩
    · exact absurd e.symm d2
    · exact absurd e.symm d3
    · exact hx
  · rintro ⟨rfl, rfl⟩
    exact NewState_missing_D geev b c dt

/-! ## C15: the SISO flag as computed -/

/-- C15: for every model returned by `NewState`, when `A` is present `isSISO` is
true iff `B` and `C` are present with `rows(B) == 1` and `cols(C) == 1`; when
`A` is absent `isSISO` is true iff `dims(D) == (1, 1)`, whatever `B` and `C`
are. -/
theorem isSISO_as_computed {α : Type} [Zero α] (geev : Geev α)
    (a b c d : Option (Dense α)) (dt : α) (s : State α)
    (h : NewState geev a b c d dt = .done (.ok s)) :
    (a ≠ none →
        (s.isSISO = true ↔ ∃ bv cv, b = some bv ∧ c = some cv ∧ bv.rows = 1 ∧ cv.cols = 1)) ∧
      (a = none → (s.isSISO = true ↔ ∃ dv, d = some dv ∧ dv.Dims = (1, 1))) := by
  obtain ⟨hv, hf⟩ := NewState_ok_fields geev a b c d dt s h
  obtain ⟨_, _, _, _, _, hS, _⟩ := finish_fields geev a b c d dt _ s hf
  rw [hS]
  constructor
  · intro ha
    cases a with
    | none => exact absurd rfl ha
    | some av =>
      cases b with
      | none => simp [sisoFlag]
      | some bv =>
        cases c with
        | none => simp [sisoFlag]
        | some cv => simp [sisoFlag]
  · intro ha
    subst ha
    cases d with
    | none => exact absurd (Or.inr (Or.inr ⟨rfl, rfl⟩)) hv
    | some dv => simp [sisoFlag, Dense.Dims]

/-- Witness for C15: the model of `TestState` (`A` present, `rows(B) = 2`). -/
theorem isSISO_as_computed_witness :
    (some exampleA ≠ none →
        (exampleState.isSISO = true ↔
          ∃ bv cv, some exampleB = some bv ∧ some exampleC = some cv ∧
            bv.rows = 1 ∧ cv.cols = 1)) ∧
      (some exampleA = none →
        (exampleState.isSISO = true ↔ ∃ dv, some exampleD = some dv ∧ dv.Dims = (1, 1))) :=
  isSISO_as_computed exampleGeev (some exampleA) (some exampleB) (some exampleC)
    (some exampleD) (1 / 10) exampleState NewState_exampleState

/-! ## C16: the SISO flag without `B` and `C` -/

/-- C16, as stated, fails: with `A = [[1]]`, `B` and `C` absent and `D = [[1]]`
of size 1 x 1, the returned model has `isSISO = false`. -/
theorem isSISO_false_without_B_C :
    ∃ s, NewState exampleGeev (some (scalarDense 1)) none none (some exampleD) 0
          = .done (.ok s) ∧
      exampleD.Dims = (1, 1) ∧ s.isSISO = false :=
  ⟨_, rfl, rfl, rfl⟩

/-- C16, amended: for every model returned by `NewState` with `A` present and
both `B` and `C` absent, `isSISO` is false, whether `D` is absent or present
and whatever its shape is. -/
theorem isSISO_ignores_D_for_dynamic {α : Type} [Zero α] (geev : Geev α) (av : Dense α)
    (d : Option (Dense α)) (dt : α) (s : State α)
    (h : NewState geev (some av) none none d dt = .done (.ok s)) :
    s.isSISO = false := by
  obtain ⟨_, hf⟩ := NewState_ok_fields geev (some av) none none d dt s h
  obtain ⟨_, _, _, _, _, hS, _⟩ := finish_fields geev (some av) none none d dt _ s hf
  rw [hS]
  rfl

/-- Witness for C16 (amended): `A = [[1]]` and `D = [[1]]` alone. -/
theorem isSISO_ignores_D_for_dynamic_witness :
    ({ A := some (scalarDense 1), B := none, C := none, D := some exampleD, dt := 0,
       isSISO := false, isGain := false, isStable := true,
       poles := .of [{ re := 1, im := 0 }], zeros := .of [] } : State ℚ).isSISO = false :=
  isSISO_ignores_D_for_dynamic exampleGeev (scalarDense 1) (some exampleD) 0 _ rfl

/-! ## C17: a non-square state matrix -/

/-- C17, the code at the failing input: `A` of size 2 x 3 with `B` of size 2 x 1
and `C` of size 1 x 3 passes every dimension check of `NewState` although `A`
is not square; the pole solver is then run on the non-square matrix and
aborts, so `NewState` returns neither a model nor an error, whatever the
eigenvalue kernel is. -/
theorem NewState_accepts_not_square (geev : Geev ℚ) :
    (NewDense 2 3 [0, 1, 0, -4, -5, 0] : Dense ℚ).rows ≠
        (NewDense 2 3 [0, 1, 0, -4, -5, 0] : Dense ℚ).cols ∧
      (∀ msg, NewState geev (some (NewDense 2 3 [0, 1, 0, -4, -5, 0])) (some exampleB)
        (some (NewDense 1 3 [1, 0, 2])) (some exampleD) (1 / 10) ≠ .done (.fail msg)) ∧
      calculatePoles geev (some (NewDense 2 3 [0, 1, 0, -4, -5, 0])) = .aborted ∧
      NewState geev (some (NewDense 2 3 [0, 1, 0, -4, -5, 0])) (some exampleB)
        (some (NewDense 1 3 [1, 0, 2])) (some exampleD) (1 / 10) = .aborted := by
  have hab : NewState geev (some (NewDense 2 3 [0, 1, 0, -4, -5, 0])) (some exampleB)
      (some (NewDense 1 3 [1, 0, 2])) (some exampleD) (1 / 10) = .aborted := rfl
  refine ⟨by decide, ?_, rfl, hab⟩
  intro msg
  rw [hab]
  simp

/-! ## C18: `D` and the validation of a dynamic model -/

theorem violated_congr_D {α : Type} (av : Dense α) (b c d1 d2 : Option (Dense α))
    (h : DimensionRuleViolated (some av) b c d1) :
    DimensionRuleViolated (some av) b c d2 := by
  rcases h with h1 | h2 | ⟨e, _⟩
  · exact Or.inl h1
  · exact Or.inr (Or.inl h2)
  · cases e

theorem NewState_fail_congr_D {α : Type} [Zero α] (geev : Geev α) (av : Dense α)
    (b c d1 d2 : Option (Dense α)) (dt : α) (msg : String)
    (h : NewState geev (some av) b c d1 dt = .done (.fail msg)) :
    NewState geev (some av) b c d2 dt = .done (.fail msg) := by
  rcases NewState_fail_cases geev (some av) b c d1 dt msg h with
    ⟨rfl, av1, bv, e1, rfl, hne⟩ | ⟨rfl, av1, cv, e1, rfl, hne, hb⟩ | ⟨_, e, _⟩
  · cases e1
    exact NewState_rows_error geev _ bv c d2 dt hne
  · cases e1
    exact NewState_cols_error geev _ cv b d2 dt hne hb
  · cases e

theorem NewState_ok_congr_D {α : Type} [Zero α] (geev : Geev α) (av : Dense α)
    (b c d1 d2 : Option (Dense α)) (dt : α) (s1 : State α)
    (h : NewState geev (some av) b c d1 dt = .done (.ok s1)) :
    ∃ s2, NewState geev (some av) b c d2 dt = .done (.ok s2) ∧
      s2.isSISO = s1.isSISO ∧ s2.isGain = s1.isGain ∧ s2.poles = s1.poles ∧
      s2.zeros = s1.zeros ∧ s2.isStable = s1.isStable := by
  obtain ⟨hv, hf⟩ := NewState_ok_fields geev (some av) b c d1 dt s1 h
  obtain ⟨hsq, hpos, r, hg, _⟩ := finish_some_ok geev av b c d1 dt _ s1 hf
  rw [finish_square geev av b c d1 dt _ hsq hpos r hg] at hf
  simp only [Outcome.done.injEq, Ret.ok.injEq] at hf
  subst hf
  have hv2 : ¬ DimensionRuleViolated (some av) b c d2 :=
    fun h2 => hv (violated_congr_D av b c d2 d1 h2)
  exact ⟨_, (NewState_of_no_violation geev _ _ _ _ dt hv2).trans
    (finish_square geev av b c d2 dt _ hsq hpos r hg), rfl, rfl, rfl, rfl, rfl⟩

theorem NewState_done_congr_D {α : Type} [Zero α] (geev : Geev α) (av : Dense α)
    (b c d1 d2 : Option (Dense α)) (dt : α) (r1 : Ret (State α))
    (h : NewState geev (some av) b c d1 dt = .done r1) :
    ∃ r2, NewState geev (some av) b c d2 dt = .done r2 := by
  cases r1 with
  | fail msg => exact ⟨_, NewState_fail_congr_D geev av b c d1 d2 dt msg h⟩
  | ok s1 =>
    obtain ⟨s2, h2, _⟩ := NewState_ok_congr_D geev av b c d1 d2 dt s1 h
    exact ⟨_, h2⟩

/-- C18: when `A` is present, `D` does not influence validation. For every `A`,
`B`, `C`, `dt` and any two choices of `D` (absent, or present with any
dimensions), `NewState` returns an error for one exactly when it returns the
same error for the other; when it succeeds for one it succeeds for the other
with identical `isSISO`, `isGain`, `poles`, `zeros` and `isStable`; so whenever
it returns for one choice it either returns an error for both or succeeds for
both; and it fails to return for one exactly when it fails to return for the
other. -/
theorem D_does_not_influence_validation {α : Type} [Zero α] (geev : Geev α) (av : Dense α)
    (b c d1 d2 : Option (Dense α)) (dt : α) :
    (∀ msg, NewState geev (some av) b c d1 dt = .done (.fail msg) ↔
        NewState geev (some av) b c d2 dt = .done (.fail msg)) ∧
      (∀ s1, NewState geev (some av) b c d1 dt = .done (.ok s1) →
        ∃ s2, NewState geev (some av) b c d2 dt = .done (.ok s2) ∧
          s2.isSISO = s1.isSISO ∧ s2.isGain = s1.isGain ∧ s2.poles = s1.poles ∧
          s2.zeros = s1.zeros ∧ s2.isStable = s1.isStable) ∧
      (∀ r1, NewState geev (some av) b c d1 dt = .done r1 →
        (∃ msg, NewState geev (some av) b c d1 dt = .done (.fail msg) ∧
            NewState geev (some av) b c d2 dt = .done (.fail msg)) ∨
        (∃ s1 s2, NewState geev (some av) b c d1 dt = .done (.ok s1) ∧
            NewState geev (some av) b c d2 dt = .done (.ok s2) ∧
            s2.isSISO = s1.isSISO ∧ s2.isGain = s1.isGain ∧ s2.poles = s1.poles ∧
            s2.zeros = s1.zeros ∧ s2.isStable = s1.isStable)) ∧
      (NewState geev (some av) b c d1 dt = .aborted ↔
        NewState geev (some av) b c d2 dt = .aborted) := by
  refine ⟨fun msg => ⟨NewState_fail_congr_D geev av b c d1 d2 dt msg,
    NewState_fail_congr_D geev av b c d2 d1 dt msg⟩,
    NewState_ok_congr_D geev av b c d1 d2 dt, fun r1 h1 => ?_, ?_, ?_⟩
  · cases r1 with
    | fail msg => exact Or.inl ⟨msg, h1, NewState_fail_congr_D geev av b c d1 d2 dt msg h1⟩
    | ok s1 =>
      obtain ⟨s2, h2, hrest⟩ := NewState_ok_congr_D geev av b c d1 d2 dt s1 h1
      exact Or.inr ⟨s1, s2, h1, h2, hrest⟩
  · intro h1
    cases h2 : NewState geev (some av) b c d2 dt with
    | aborted => rfl
    | done r2 =>
      obtain ⟨r1, hr1⟩ := NewState_done_congr_D geev av b c d2 d1 dt r2 h2
      rw [h1] at hr1
      simp at hr1
  · intro h2
    cases h1 : NewState geev (some av) b c d1 dt with
    | aborted => rfl
    | done r1 =>
      obtain ⟨r2, hr2⟩ := NewState_done_congr_D geev av b c d1 d2 dt r1 h1
      rw [h2] at hr2
      simp at hr2

/-- Witness for C18: the model of `TestState`, against the same inputs with `D`
absent. -/
theorem D_does_not_influence_validation_witness :
    ∃ s2, NewState exampleGeev (some exampleA) (some exampleB) (some exampleC) none (1 / 10)
          = .done (.ok s2) ∧
      s2.isSISO = exampleState.isSISO ∧ s2.isGain = exampleState.isGain ∧
      s2.poles = exampleState.poles ∧ s2.zeros = exampleState.zeros ∧
      s2.isStable = exampleState.isStable :=
  (D_does_not_influence_validation exampleGeev exampleA (some exampleB) (some exampleC)
    (some exampleD) none (1 / 10)).2.1 exampleState NewState_exampleState

/-! ## C19: counts of a gain model -/

/-- C19: for every model returned by `NewState`, `NumberOfInputs()` is 0 whenever
`B` is absent and `NumberOfOutputs()` is 0 whenever `C` is absent; in
particular a gain model built from `D` alone, of any size, has 0 states, 0
inputs, 0 outputs and shape `(0, 0)`, and its description reads
`0x0 Static Gain`. -/
theorem counts_ignore_D {α : Type} [Zero α] (geev : Geev α)
    (a b c d : Option (Dense α)) (dt : α) (s : State α)
    (h : NewState geev a b c d dt = .done (.ok s)) :
    (b = none → s.NumberOfInputs = 0) ∧ (c = none → s.NumberOfOutputs = 0) ∧
      (a = none → b = none → c = none →
        s.NumberOfStates = 0 ∧ s.NumberOfInputs = 0 ∧ s.NumberOfOutputs = 0 ∧
        s.Shape = (0, 0) ∧
        ∀ fmt3 : α → String, s.Describe fmt3 =
          "State representation with sampling time: " ++ fmt3 dt ++ "\n"
            ++ "0" ++ "x" ++ "0" ++ " Static Gain\n") := by
  obtain ⟨hA, hB, hC, _, hdt, _, hG, _⟩ :=
    finish_fields geev a b c d dt _ s (NewState_ok_fields geev a b c d dt s h).2
  refine ⟨fun hb => ?_, fun hc => ?_, fun ha hb hc => ?_⟩
  · simp [State.NumberOfInputs, hB, hb]
  · simp [State.NumberOfOutputs, hC, hc]
  · subst ha hb hc
    have hi : s.NumberOfInputs = 0 := by simp [State.NumberOfInputs, hB]
    have ho : s.NumberOfOutputs = 0 := by simp [State.NumberOfOutputs, hC]
    refine ⟨by simp [State.NumberOfStates, hA], hi, ho, by simp [State.Shape, hi, ho], ?_⟩
    intro fmt3
    simp only [State.Describe, hG, hi, ho, hdt, Option.isNone_none, if_true]
    rfl

/-- Witness for C19: the gain model built from `D = [[1]]` alone. -/
theorem counts_ignore_D_witness :
    exampleGain.NumberOfStates = 0 ∧ exampleGain.NumberOfInputs = 0 ∧
      exampleGain.NumberOfOutputs = 0 ∧ exampleGain.Shape = (0, 0) ∧
      ∀ fmt3 : ℚ → String, exampleGain.Describe fmt3 =
        "State representation with sampling time: " ++ fmt3 0 ++ "\n"
          ++ "0" ++ "x" ++ "0" ++ " Static Gain\n" :=
  (counts_ignore_D exampleGeev none none none (some exampleD) 0 exampleGain
    NewState_exampleGain).2.2 rfl rfl rfl

/-! ## C12: the poles of the example model -/

theorem charDet_exampleA (z : ℂ) : charDet exampleA z = (z + 1) * (z + 4) := by
  unfold charDet
  have hr : exampleA.rows = 2 := rfl
  rw [hr, Matrix.det_fin_two]
  simp [entryIn, Dense.At, exampleA, NewDense]
  ring

theorem isEigenvalue_exampleA (z : ℂ) : IsEigenvalue exampleA z ↔ z = -1 ∨ z = -4 := by
  unfold IsEigenvalue
  rw [charDet_exampleA, mul_eq_zero]
  constructor
  · rintro (h | h)
    · exact Or.inl (eq_neg_of_add_eq_zero_left h)
    · exact Or.inr (eq_neg_of_add_eq_zero_left h)
  · rintro (h | h)
    · exact Or.inl (by rw [h]; ring)
    · exact Or.inr (by rw [h]; ring)

theorem modulus_of_example_pole (p : Complex128 ℚ) (z : ℂ)
    (hre : z.re = (p.re : ℝ)) (him : z.im = (p.im : ℝ)) (hz : z = -1 ∨ z = -4) :
    1 ≤ p.re * p.re + p.im * p.im := by
  rcases hz with h | h
  · rw [h] at hre him
    have h1 : p.re = -1 := by
      have : ((p.re : ℚ) : ℝ) = -1 := by simpa using hre.symm
      exact_mod_cast this
    have h2 : p.im = 0 := by
      have : ((p.im : ℚ) : ℝ) = 0 := by simpa using him.symm
      exact_mod_cast this
    rw [h1, h2]
    norm_num
  · rw [h] at hre him
    have h1 : p.re = -4 := by
      have : ((p.re : ℚ) : ℝ) = -4 := by simpa using hre.symm
      exact_mod_cast this
    have h2 : p.im = 0 := by
      have : ((p.im : ℚ) : ℝ) = 0 := by simpa using him.symm
      exact_mod_cast this
    rw [h1, h2]
    norm_num

/-- C12, as stated, fails: whatever the eigenvalue routine returns, the model of
`TestState` cannot have as poles the eigenvalues of `A` and have every pole of
modulus strictly less than 1: `-1` is an eigenvalue of `A` and its modulus
is 1. -/
theorem example_poles_not_in_unit_disc :
    ¬ ∃ (geev : Geev ℚ) (s : State ℚ),
        NewState geev (some exampleA) (some exampleB) (some exampleC) (some exampleD)
          (1 / 10) = .done (.ok s) ∧
        (∀ z : ℂ, IsEigenvalue exampleA z ↔ OccursIn z s.poles) ∧
        (∀ p ∈ s.poles.elems, p.re * p.re + p.im * p.im < 1) ∧
        s.isStable = true := by
  rintro ⟨geev, s, _, he, hin, _⟩
  obtain ⟨p, hp, hre, him⟩ := (he (-1)).1 ((isEigenvalue_exampleA _).2 (Or.inl rfl))
  have h1 := modulus_of_example_pole p (-1) hre him (Or.inl rfl)
  have h2 := hin p hp
  exact absurd h2 (not_lt.mpr h1)

/-- C12, amended: for the example model, `NewState` succeeds; when the eigenvalue
routine answers with the eigenvalues of `A`, the poles are these two
eigenvalues, which are `-1` and `-4`, and neither pole has modulus strictly
less than 1 (the squared modulus of each is at least 1). -/
theorem example_poles_are_eigenvalues (geev : Geev ℚ) (w : Nat → Complex128 ℚ)
    (hg : geev exampleA = .done (some w))
    (hw : ∀ z : ℂ, IsEigenvalue exampleA z ↔ OccursIn z (.of [w 0, w 1])) :
    ∃ s, NewState geev (some exampleA) (some exampleB) (some exampleC) (some exampleD)
          (1 / 10) = .done (.ok s) ∧
      s.poles = .of [w 0, w 1] ∧
      (∀ z : ℂ, IsEigenvalue exampleA z ↔ OccursIn z s.poles) ∧
      (∀ z : ℂ, OccursIn z s.poles ↔ z = -1 ∨ z = -4) ∧
      (∀ p ∈ s.poles.elems, ¬ (p.re * p.re + p.im * p.im < 1)) := by
  have hv : ¬ DimensionRuleViolated (some exampleA) (some exampleB) (some exampleC)
      (some exampleD) := by
    simp [DimensionRuleViolated, exampleA, exampleB, exampleC, NewDense]
  have hf := finish_square geev exampleA (some exampleB) (some exampleC) (some exampleD)
    (1 / 10) (sisoFlag (some exampleA) (some exampleB) (some exampleC) (some exampleD))
    rfl (by decide) (some w) hg
  have hocc : ∀ z : ℂ, OccursIn z (.of [w 0, w 1]) ↔ z = -1 ∨ z = -4 :=
    fun z => (hw z).symm.trans (isEigenvalue_exampleA z)
  refine ⟨_, (NewState_of_no_violation geev _ _ _ _ _ hv).trans hf, rfl, hw, hocc, ?_⟩
  intro p hp
  have hz := (hocc { re := (p.re : ℝ), im := (p.im : ℝ) }).1 ⟨p, hp, rfl, rfl⟩
  exact not_lt.mpr (modulus_of_example_pole p _ rfl rfl hz)

/-- Witness for C12 (amended): the kernel `exampleGeev`, which answers `-1` and
`-4` on the matrix of `TestState`. -/
theorem example_poles_are_eigenvalues_witness :
    ∃ s, NewState exampleGeev (some exampleA) (some exampleB) (some exampleC)
          (some exampleD) (1 / 10) = .done (.ok s) ∧
      s.poles = .of [{ re := -1, im := 0 }, { re := -4, im := 0 }] ∧
      (∀ z : ℂ, IsEigenvalue exampleA z ↔ OccursIn z s.poles) ∧
      (∀ z : ℂ, OccursIn z s.poles ↔ z = -1 ∨ z = -4) ∧
      (∀ p ∈ s.poles.elems, ¬ (p.re * p.re + p.im * p.im < 1)) :=
  example_poles_are_eigenvalues exampleGeev
    (fun i => { re := [(-1 : ℚ), -4].getD i 0, im := 0 }) rfl
    (fun z => by
      rw [isEigenvalue_exampleA]
      simp [OccursIn, Slice.elems, Complex.ext_iff])

end Harold
